import Mathlib

/-!
# Verification of the temp-storage actions

Shallow embedding of `actions/MyActions/temp-storage/actions.py`: four
actions (`load_data`, `query`, `cleanup`, `return_my_thread_id`) and the
helper `_access_file`, which load a CSV into a DuckDB store, run SQL,
delete the store file, and echo a request header.

The embedded SQL engine, the chat attachment service and the filesystem
are external collaborators; they are modelled as explicit oracles
(functions and `Except` results) threaded through the embedded actions.
Tables are modelled concretely: a list of column descriptors plus rows of
nullable typed cells (`Option Val`), so that the catalog queries the
Python code issues (`information_schema`, `COUNT(DISTINCT ...)` — which
ignores NULLs, `SELECT DISTINCT ... ORDER BY` — which sorts by the
column's native order with NULLS LAST, `LIMIT 5`) become concrete list
computations with SQL's NULL semantics.  Every Python exception becomes an
`Except.error`; an action that catches exceptions is a total Lean function
returning `String`, and an action that lets them propagate returns
`Except String _`.  `duckdb.connect` is modelled where its placement and
side effects are observable: in `query` it runs before the `try` block, so
its failure propagates; in `cleanup` it runs inside the `try` and creates
the store file when absent.
-/

namespace TempStorage

/-- `DB_PATH` from actions.py line 7: `os.path.join("data", "customer_data.duckdb")`. -/
def DB_PATH : String := "data/customer_data.duckdb"

/-- A horizontal rule of `n` copies of character `c`, modelling Python `c * n`. -/
def rule (c : Char) (n : Nat) : String := String.mk (List.replicate n c)

/-- Python builds its reports by appending `"...\n"` fragments; we collect the
lines and render them with one trailing newline each. -/
def render (ls : List String) : String := String.join (ls.map (· ++ "\n"))

/-- Python `str.strip()` with no arguments: remove leading and trailing
whitespace. -/
def pyStrip (s : String) : String :=
  String.mk (((s.toList.dropWhile Char.isWhitespace).reverse.dropWhile
    Char.isWhitespace).reverse)

/-! ## Path model (for `pathlib.Path` operations used by `_access_file`) -/

/-- Splits a character list at every occurrence of `sep` (the separator is
dropped; empty pieces are kept). -/
def splitOnChar (sep : Char) : List Char → List (List Char)
  | [] => [[]]
  | c :: cs =>
    if c = sep then [] :: splitOnChar sep cs
    else
      match splitOnChar sep cs with
      | [] => [[c]]
      | p :: ps => (c :: p) :: ps

/-- Path components as `pathlib` sees them: split on `/`, dropping empty
components and `"."` components. -/
def pathParts (p : String) : List String :=
  ((splitOnChar '/' p.toList).map String.mk).filter (fun c => c ≠ "" && c ≠ ".")

/-- `Path(p).name`: the final component, or `""` when there is none. -/
def pathName (p : String) : String := (pathParts p).getLastD ""

/-- `Path(p).parent` rendered as a string (`"."` when there is no directory part). -/
def pathParent (p : String) : String :=
  match (pathParts p).dropLast with
  | [] => "."
  | ps => String.intercalate "/" ps

/-- Index of the last `.` in a list of characters, if any. -/
def lastDotIdx : List Char → Option Nat
  | [] => none
  | c :: cs =>
    match lastDotIdx cs with
    | some i => some (i + 1)
    | none => if c = '.' then some 0 else none

/-- `Path(p).suffix`: the final extension of the name, `""` when the name has
no dot after its first character. -/
def pathSuffix (p : String) : String :=
  let n := pathName p
  match lastDotIdx n.toList with
  | none => ""
  | some 0 => ""
  | some i => String.mk (n.toList.drop i)

/-- `Path(p).stem`: the name without its final extension. -/
def pathStem (p : String) : String :=
  let n := pathName p
  match lastDotIdx n.toList with
  | none => n
  | some 0 => n
  | some i => String.mk (n.toList.take i)

/-! ## `_access_file` (actions.py lines 204-229) -/

/-- The chat attachment collaborator (`sema4ai.actions.chat`) and the
filesystem rename: both can raise, modelled as `Except String`.
`getFile` maps a basename to the staged temporary file's path;
`rename` moves the staged file to the target path. -/
structure ChatApi where
  getFile : String → Except String String
  rename : String → String → Except String Unit

/-- Embeds `_access_file` (lines 204-229).  It extracts the basename of the
caller-supplied `filename`, asks the chat file API for a staged copy, renames
the staged copy so it keeps the original suffix, and returns
`(orig_basename, temp_file)`.  Any exception in the `try` block (retrieval or
rename) is caught and the original `filename` string is used as the path. -/
def accessFile (api : ChatApi) (filename : String) : String × String :=
  let origBasename := pathName filename
  let attempt : Except String String := do
    let tempFile ← api.getFile origBasename
    let tempFileDir := pathParent tempFile
    let newTempFileName := pathStem tempFile ++ pathSuffix filename
    let newTempFilePath := tempFileDir ++ "/" ++ newTempFileName
    let _ ← api.rename tempFile newTempFilePath
    pure newTempFilePath
  match attempt with
  | .ok t => (origBasename, t)
  | .error _ => (origBasename, filename)

/-! ## Table model -/

/-- A non-NULL SQL scalar as DuckDB hands it to Python: an integer or a
string (the two cell types the loaded CSVs exercise).  Columns are
homogeneous, so comparisons only ever happen within one constructor. -/
inductive Val where
  | int (n : Int)
  | str (s : String)
deriving DecidableEq

/-- The engine's `ORDER BY` comparison on non-NULL values: by the column's
native order (integers numerically, strings lexicographically).  The
cross-constructor cases are an arbitrary tie-break never exercised by a
homogeneous column. -/
def Val.le : Val → Val → Bool
  | .int m, .int n => decide (m ≤ n)
  | .int _, .str _ => true
  | .str _, .int _ => false
  | .str a, .str b => decide (a ≤ b)

/-- Python `str(...)` applied to a fetched cell: `None` prints as `"None"`,
integers print in decimal, strings print as themselves. -/
def pyStrVal : Option Val → String
  | none => "None"
  | some (.int n) => toString n
  | some (.str s) => s

/-- One table row: nullable cells (`none` is SQL NULL, fetched into Python
as `None`). -/
abbrev Row := List (Option Val)

/-- A DuckDB table: column descriptors `(column_name, data_type)` in
`ordinal_position` order, and the stored rows. -/
structure Table where
  cols : List (String × String)
  rows : List Row
deriving DecidableEq

/-- The cells stored in column `i` of table `t`, in storage order
(missing cells read as NULL). -/
def columnValues (t : Table) (i : Nat) : List (Option Val) :=
  t.rows.map (fun r => r.getD i none)

/-- The non-NULL values of column `i`, in storage order. -/
def nonNullValues (t : Table) (i : Nat) : List Val :=
  (columnValues t i).filterMap id

/-- `SELECT COUNT(DISTINCT "col") FROM customers` (line 60): the number of
distinct values in the column.  SQL `COUNT(DISTINCT ...)` ignores NULLs. -/
def distinctCount (t : Table) (i : Nat) : Nat :=
  (nonNullValues t i).dedup.length

/-- Whether column `i` contains any NULL cell. -/
def hasNull (t : Table) (i : Nat) : Bool :=
  (columnValues t i).any Option.isNone

/-- `SELECT DISTINCT "col" FROM customers ORDER BY "col"` (lines 65-68):
the distinct non-NULL values ascending in the column's native order,
followed by the single NULL row when the column has NULLs (DuckDB's
default null order for `ASC` is NULLS LAST). -/
def distinctValuesSorted (t : Table) (i : Nat) : List (Option Val) :=
  (List.insertionSort (fun a b => Val.le a b = true) (nonNullValues t i).dedup).map some ++
    (if hasNull t i then [none] else [])

/-! ## `load_data` (actions.py lines 10-90) -/

/-- Per-column content of the schema loop body (lines 56-72): the column
name and type always appear; the enumerated distinct values appear exactly
when the loop's `if distinct_count < 10` test fires. -/
structure ColumnReport where
  name : String
  dtype : String
  possibleValues : Option (List String)
deriving DecidableEq

/-- The schema loop body (lines 56-72) for column `i` with descriptor `c`:
the threshold test uses the NULL-ignoring `COUNT(DISTINCT ...)`, while the
enumeration stringifies every row of `SELECT DISTINCT ... ORDER BY`
(line 69: `values_list = [str(val[0]) for val in values]`), NULL
included. -/
def columnReport (t : Table) (i : Nat) (c : String × String) : ColumnReport :=
  { name := c.1
    dtype := c.2
    possibleValues :=
      if distinctCount t i < 10 then
        some ((distinctValuesSorted t i).map pyStrVal)
      else none }

/-- Renders one schema line exactly as lines 57 and 70 concatenate it. -/
def renderColumnLine (cr : ColumnReport) : String :=
  "Column: " ++ cr.name ++ ", Type: " ++ cr.dtype ++
    (match cr.possibleValues with
     | some vs => ", Possible values: " ++ String.intercalate ", " vs
     | none => "")

/-- The schema section lines (lines 53-72): title, a 50-char rule, then one
line per column in definition order. -/
def schemaLines (t : Table) : List String :=
  "Schema Information:" :: rule '=' 50 ::
    t.cols.enum.map (fun ic => renderColumnLine (columnReport t ic.1 ic.2))

/-- The sample section lines (lines 74-88): a blank line (from the leading
`\n`), title, rule, the pipe-joined column headers, a dashed rule, then the
first 5 rows (`SELECT * FROM customers LIMIT 5`) pipe-joined. -/
def sampleLines (t : Table) : List String :=
  "" :: "Sample Data (5 rows):" :: rule '=' 50 ::
    String.intercalate " | " (t.cols.map Prod.fst) :: rule '-' 50 ::
    (t.rows.take 5).map (fun r => String.intercalate " | " (r.map pyStrVal))

/-- The success line (line 41), including the blank line from its `\n\n`. -/
def loadMsgLines (origFilename : String) (rowCount : Nat) : List String :=
  ["Successfully loaded " ++ toString rowCount ++ " rows from " ++ origFilename ++
    " into table 'customers' in DuckDB database at " ++ DB_PATH ++ ".", ""]

/-- The full `load_data` report (line 90: `load_msg + schema_info + sample_info`). -/
def loadReportLines (origFilename : String) (t : Table) : List String :=
  loadMsgLines origFilename t.rows.length ++ schemaLines t ++ sampleLines t

/-- External collaborators of `load_data`: the chat API and
`read_csv_auto`, which parses the file at the given path into a table or
raises (file missing/unreadable). -/
structure LoadEnv where
  chat : ChatApi
  readCsv : String → Except String Table

/-- Embeds `load_data` (lines 10-90) acting on the store's `customers`
table state (`none` = table absent).  `CREATE TABLE IF NOT EXISTS customers
AS SELECT * FROM read_csv_auto(f)` (lines 33-35) reads the CSV and keeps the
existing table when present; the row count, schema section and sample
section are then computed from the resulting table.  `load_data` has no
`try`/`except`: a CSV read failure propagates as `Except.error`. -/
def load_data (env : LoadEnv) (db : Option Table) (filename : String) :
    Except String (String × Option Table) :=
  let acc := accessFile env.chat filename
  match env.readCsv acc.2 with
  | .error e => .error e
  | .ok csv =>
    let t := db.getD csv
    .ok (render (loadReportLines acc.1 t), some t)

/-! ## `query` (actions.py lines 93-160) -/

/-- Result of a successful `con.execute(sql).fetchall()`: the column names
from `con.description` and the fetched rows. -/
structure QueryResult where
  columns : List String
  rows : List Row
deriving DecidableEq

/-- The store as `query` sees it: the catalog of tables in schema `main`
(`(table_name, table_type)` pairs) and the engine's behaviour on an
arbitrary SQL string, which may raise. -/
structure DB where
  tables : List (String × String)
  runSQL : String → Except String QueryResult

/-- The catalog query of lines 110-115 (`SELECT table_name, table_type FROM
information_schema.tables WHERE table_schema = 'main' ORDER BY table_name`):
the catalog entries sorted ascending by table name. -/
def information_schema_tables (db : DB) : List (String × String) :=
  List.insertionSort (fun a b => a.1 ≤ b.1) db.tables

/-- The table-listing branch (lines 108-129). -/
def tableListingLines (db : DB) : List String :=
  "Database Tables:" :: rule '=' 50 ::
    (match information_schema_tables db with
     | [] => ["No tables found in the database."]
     | rs => "TABLE_NAME | TABLE_TYPE" :: rule '-' 50 ::
         rs.map (fun r => r.1 ++ " | " ++ r.2))

/-- The result-formatting branch (lines 131-158). -/
def queryResultLines (sql : String) (res : QueryResult) : List String :=
  "Query Results:" :: rule '=' 50 ::
    ("Executed query: " ++ sql) :: "" ::
    ("Returned " ++ toString res.rows.length ++ " rows") :: "" ::
    (match res.rows with
     | [] => ["No rows returned."]
     | rs => String.intercalate " | " res.columns :: rule '-' 50 ::
         rs.map (fun r => String.intercalate " | " (r.map pyStrVal)))

/-- Embeds `query` (lines 93-160).  A whitespace-only `sql_query` (line 109:
`not sql_query.strip()`) selects the table-listing branch; otherwise the
engine runs the SQL verbatim, and the `except` at lines 159-160 turns any
engine error into the `"Error executing query: ..."` text.  The embedding is
a total function: no exception escapes. -/
def query (db : DB) (sql_query : String) : String :=
  if (pyStrip sql_query).isEmpty then
    render (tableListingLines db)
  else
    match db.runSQL sql_query with
    | .ok res => render (queryResultLines sql_query res)
    | .error e => "Error executing query: " ++ e

/-- Embeds the whole of `query` including the `duckdb.connect` at line 105,
which stands OUTSIDE the `try` block that only begins at line 107: when the
connection itself fails (missing `data/` directory, held lock) the
exception propagates to the caller as a hard failure, and only when it
succeeds does the never-raising body `query` run. -/
def query_action (connect : Except String DB) (sql_query : String) :
    Except String String :=
  match connect with
  | .error e => .error e
  | .ok db => .ok (query db sql_query)

/-! ## `cleanup` (actions.py lines 163-185) -/

/-- The filesystem as `cleanup` sees it: whether the store file exists, plus
the failure behaviour of the two fallible steps inside the `try` block —
`duckdb.connect`/`close` (lines 173-174) and `os.remove` (line 178).
`some e` means the step raises with message `e`. -/
structure FileSystem where
  dbExists : Bool
  connectError : Option String
  removeError : Option String
deriving DecidableEq

/-- Embeds `cleanup` (lines 163-185): open and close a connection, delete
the store file if it exists; any exception in the `try` block is caught and
reported as `"Error removing database: ..."`.  A successful
`duckdb.connect` in read-write mode CREATES the store file when it is
absent (and `con.close()` leaves it behind), so the `os.path.exists` test
at line 177 runs on the post-connect state — which always holds the file.
Returns the response text and the filesystem after the call.  The embedding
is a total function: no exception escapes. -/
def cleanup (fs : FileSystem) : String × FileSystem :=
  match fs.connectError with
  | some e => ("Error removing database: " ++ e, fs)
  | none =>
    let fs1 : FileSystem := { fs with dbExists := true }
    if fs1.dbExists then
      match fs1.removeError with
      | some e => ("Error removing database: " ++ e, fs1)
      | none =>
        ("Database file at " ++ DB_PATH ++ " has been completely removed.",
         { fs1 with dbExists := false })
    else
      ("Database file at " ++ DB_PATH ++ " does not exist.", fs1)

/-! ## `return_my_thread_id` (actions.py lines 188-201) -/

/-- An inbound request: its headers, looked up by `request.headers.get`,
which yields `None` for an absent key. -/
structure Request where
  headers : List (String × String)

/-- `request.headers.get(k)`: first value bound to `k`, or `none`. -/
def headersGet (req : Request) (k : String) : Option String :=
  req.headers.lookup k

/-- Python `f"{x}"` on an optional value: `None` prints as `"None"`. -/
def pyStr : Option String → String
  | none => "None"
  | some s => s

/-- Embeds `return_my_thread_id` (lines 188-201): a total function on the
request, formatting the header value (or `None`) into the response text. -/
def return_my_thread_id (req : Request) : String :=
  "Thread id = " ++ pyStr (headersGet req "X-INVOKED_FOR_THREAD_ID")

/-! ## Concrete fixtures used to instantiate the theorems -/

/-- A 10-row table without NULLs whose first column has 9 distinct values
and whose second column has 10 distinct values. -/
def wTable : Table :=
  { cols := [("grade", "VARCHAR"), ("id", "VARCHAR")]
    rows := [[some (.str "a"), some (.str "0")], [some (.str "b"), some (.str "1")],
             [some (.str "c"), some (.str "2")], [some (.str "d"), some (.str "3")],
             [some (.str "e"), some (.str "4")], [some (.str "f"), some (.str "5")],
             [some (.str "g"), some (.str "6")], [some (.str "h"), some (.str "7")],
             [some (.str "i"), some (.str "8")], [some (.str "a"), some (.str "9")]] }

/-- A 10-row single-column integer table: 9 distinct non-NULL values
(`1..8` and `10`) plus one NULL cell. -/
def cTable : Table :=
  { cols := [("score", "INTEGER")]
    rows := [[some (.int 1)], [some (.int 2)], [some (.int 3)], [some (.int 4)],
             [some (.int 5)], [some (.int 6)], [some (.int 7)], [some (.int 8)],
             [some (.int 10)], [none]] }

/-- A chat API on which attachment retrieval always fails. -/
def wChatFail : ChatApi :=
  { getFile := fun _ => .error "File not found"
    rename := fun _ _ => .ok () }

/-- A load environment whose attachment retrieval fails and whose CSV read
also fails (the fallback path does not exist either). -/
def wEnvFail : LoadEnv :=
  { chat := wChatFail
    readCsv := fun _ => .error "IO Error: No files found that match the pattern report.csv" }

/-- A load environment whose attachment retrieval fails but whose fallback
path reads successfully as `wTable`. -/
def wEnvOk : LoadEnv :=
  { chat := wChatFail
    readCsv := fun _ => .ok wTable }

/-- A store on which every SQL execution raises a catalog error. -/
def wDBerr : DB :=
  { tables := [("customers", "BASE TABLE")]
    runSQL := fun _ => .error "Catalog Error: Table with name nonexistent does not exist!" }

/-- A store holding two tables, listed here out of name order. -/
def wDB2 : DB :=
  { tables := [("orders", "BASE TABLE"), ("customers", "BASE TABLE")]
    runSQL := fun _ => .ok { columns := [], rows := [] } }

/-- A healthy filesystem on which the store file exists. -/
def wFS : FileSystem :=
  { dbExists := true, connectError := none, removeError := none }

/-- A request carrying no headers at all. -/
def wReq : Request := { headers := [] }

/-! ## Theorems -/

/-- C2 counterexample: the claim "the query operation never raises an
exception to the caller" is false — `duckdb.connect` at line 105 runs
OUTSIDE the `try` block that begins at line 107, so when the connection
fails (here: the `data/` directory is missing) the exception propagates as
a hard failure for any `sql_query`. -/
theorem query_raises_on_connect_failure :
    query_action (.error "IO Error: Cannot open file data/customer_data.duckdb")
        "SELECT 1" =
      .error "IO Error: Cannot open file data/customer_data.duckdb" := rfl

/-- C2 amended: once `duckdb.connect` succeeds, `query` never raises — the
body is total, so the action returns a normal response on every
`sql_query` — and every SQL execution error (malformed SQL, missing table,
type error: any `runSQL` error) is caught and returned as the
`"Error executing query: ..."` text.  A failure of the connect step itself
(outside the `try`) still propagates, as the counterexample shows. -/
theorem query_error_becomes_text (db : DB) (sql e : String) :
    query_action (.ok db) sql = .ok (query db sql) ∧
    ((pyStrip sql).isEmpty = false → db.runSQL sql = .error e →
      query db sql = "Error executing query: " ++ e) := by
  refine ⟨rfl, fun hs h => ?_⟩
  unfold query
  rw [hs, h]
  rfl

theorem query_error_becomes_text_witness :
    query_action (.ok wDBerr) "SELECT * FROM nonexistent" =
      .ok (query wDBerr "SELECT * FROM nonexistent") ∧
    query wDBerr "SELECT * FROM nonexistent" =
      "Error executing query: Catalog Error: Table with name nonexistent does not exist!" := by
  have h := query_error_becomes_text wDBerr "SELECT * FROM nonexistent"
    "Catalog Error: Table with name nonexistent does not exist!"
  exact ⟨h.1, h.2 rfl rfl⟩

/-- C7: in the sample section of every `load_data` report, at most 5 data
rows follow the fixed preamble, and the header row (line index 3 of the
section) is exactly the table's column names in definition order, joined
with `" | "`. -/
theorem sample_section_header_and_bound (t : Table) :
    ((sampleLines t).drop 5).length ≤ 5 ∧
    (sampleLines t)[3]? = some (String.intercalate " | " (t.cols.map Prod.fst)) := by
  constructor
  · show ((t.rows.take 5).map
        (fun r => String.intercalate " | " (r.map pyStrVal))).length ≤ 5
    rw [List.length_map, List.length_take]
    exact min_le_left _ _
  · rfl

/-- C8: `cleanup` never raises: it is a total function, and on every
filesystem state its response text is the deleted message, the
does-not-exist message, or a caught-and-reported error message. -/
theorem cleanup_never_raises (fs : FileSystem) :
    (cleanup fs).1 = "Database file at " ++ DB_PATH ++ " has been completely removed." ∨
    (cleanup fs).1 = "Database file at " ++ DB_PATH ++ " does not exist." ∨
    ∃ e, (cleanup fs).1 = "Error removing database: " ++ e := by
  rcases fs with ⟨ex, ce, re⟩
  cases ce with
  | some e => exact .inr (.inr ⟨e, rfl⟩)
  | none =>
    cases re with
    | some e => exact .inr (.inr ⟨e, rfl⟩)
    | none => exact .inl rfl

/-- C9: any whitespace-only `sql_query` is treated exactly like the empty
string — the emptiness test at line 109 strips the string first, so a
blank-padded query selects the table-listing branch rather than being
executed as SQL. -/
theorem query_blank_is_table_listing (db : DB) (s : String) (h : pyStrip s = "") :
    query db s = query db "" := by
  unfold query
  rw [h]
  rfl

theorem query_blank_is_table_listing_witness :
    query wDB2 "   " = query wDB2 "" :=
  query_blank_is_table_listing wDB2 "   " rfl

/-- C10: `return_my_thread_id` never fails: it is a total function, and when
the `"X-INVOKED_FOR_THREAD_ID"` header is absent the lookup yields `none`
(Python `None`) and the response text is `"Thread id = None"`. -/
theorem thread_id_none_when_header_absent (req : Request)
    (h : headersGet req "X-INVOKED_FOR_THREAD_ID" = none) :
    return_my_thread_id req = "Thread id = None" := by
  unfold return_my_thread_id
  rw [h]
  rfl

theorem thread_id_none_when_header_absent_witness :
    return_my_thread_id wReq = "Thread id = None" :=
  thread_id_none_when_header_absent wReq rfl

/-- The `ORDER BY` comparison on non-NULL values is total. -/
theorem valLe_total (a b : Val) : Val.le a b = true ∨ Val.le b a = true := by
  cases a with
  | int m =>
    cases b with
    | int n =>
      rcases Int.le_total m n with h | h
      · exact Or.inl (decide_eq_true h)
      · exact Or.inr (decide_eq_true h)
    | str s => exact Or.inl rfl
  | str s =>
    cases b with
    | int n => exact Or.inr rfl
    | str s2 =>
      rcases le_total s s2 with h | h
      · exact Or.inl (decide_eq_true h)
      · exact Or.inr (decide_eq_true h)

/-- The `ORDER BY` comparison on non-NULL values is transitive. -/
theorem valLe_trans (a b c : Val) (hab : Val.le a b = true)
    (hbc : Val.le b c = true) : Val.le a c = true := by
  cases a with
  | int m =>
    cases c with
    | str s => rfl
    | int k =>
      cases b with
      | int n =>
        exact decide_eq_true (le_trans (of_decide_eq_true hab) (of_decide_eq_true hbc))
      | str s => exact Bool.noConfusion hbc
  | str s =>
    cases b with
    | int n => exact Bool.noConfusion hab
    | str s2 =>
      cases c with
      | int k => exact Bool.noConfusion hbc
      | str s3 =>
        exact decide_eq_true (le_trans (of_decide_eq_true hab) (of_decide_eq_true hbc))

/-- C1 counterexample: a column with exactly 9 distinct non-NULL values
plus NULL cells.  `COUNT(DISTINCT)` ignores NULLs, so the distinct count is
exactly 9, yet the report's line enumerates 10 entries — the 9 values in
the column's native (numeric) order, which is not the lexicographic order
of their texts (`"10"` after `"8"`), followed by `"None"` for the NULL row.
This falsifies "for every column whose distinct-value count is exactly 9
the report enumerates all 9 distinct values in ascending order". -/
theorem schema_enumeration_counterexample :
    distinctCount cTable 0 = 9 ∧
    (columnReport cTable 0 ("score", "INTEGER")).possibleValues =
      some ["1", "2", "3", "4", "5", "6", "7", "8", "10", "None"] := by
  constructor
  · decide
  · decide

/-- C1 amended: the enumeration fires exactly when the NULL-ignoring
distinct count is strictly below 10; for a column with exactly 9 distinct
non-NULL values the line enumerates those 9 values — ascending in the
column's native order, without repetition, covering exactly the column's
non-NULL values — followed by `"None"` exactly when the column contains
NULLs; for a count of exactly 10 it enumerates nothing. -/
theorem schema_enumeration_amended (t : Table) (i : Nat) (c : String × String) :
    ((columnReport t i c).possibleValues.isSome ↔ distinctCount t i < 10) ∧
    (distinctCount t i = 9 →
      ∃ vals : List Val, (columnReport t i c).possibleValues =
          some (vals.map (fun v => pyStrVal (some v)) ++
            (if hasNull t i then ["None"] else [])) ∧
        vals.length = 9 ∧ vals.Sorted (fun a b => Val.le a b = true) ∧
        vals.Nodup ∧ (∀ v, v ∈ vals ↔ some v ∈ columnValues t i)) ∧
    (distinctCount t i = 10 → (columnReport t i c).possibleValues = none) := by
  refine ⟨?_, ?_, ?_⟩
  · unfold columnReport
    by_cases h : distinctCount t i < 10 <;> simp [h]
  · intro h9
    have hlt : distinctCount t i < 10 := by omega
    haveI : IsTotal Val (fun a b => Val.le a b = true) := ⟨valLe_total⟩
    haveI : IsTrans Val (fun a b => Val.le a b = true) :=
      ⟨fun a b c => valLe_trans a b c⟩
    refine ⟨List.insertionSort (fun a b => Val.le a b = true) (nonNullValues t i).dedup,
      ?_, ?_, ?_, ?_, ?_⟩
    · simp only [columnReport, if_pos hlt, distinctValuesSorted]
      cases hn : hasNull t i <;>
        simp [hn, List.map_append, List.map_map, Function.comp, pyStrVal]
    · rw [(List.perm_insertionSort _ _).length_eq]
      exact h9
    · exact List.sorted_insertionSort _ _
    · exact (List.perm_insertionSort _ _).nodup_iff.2 (List.nodup_dedup _)
    · intro v
      rw [(List.perm_insertionSort _ _).mem_iff, List.mem_dedup]
      simp [nonNullValues, List.mem_filterMap]
  · intro h10
    have h : ¬distinctCount t i < 10 := by omega
    simp [columnReport, h]

theorem schema_enumeration_amended_witness :
    distinctCount wTable 0 = 9 ∧ distinctCount wTable 1 = 10 ∧
    (∃ vals : List Val, (columnReport wTable 0 ("grade", "VARCHAR")).possibleValues =
        some (vals.map (fun v => pyStrVal (some v)) ++
          (if hasNull wTable 0 then ["None"] else [])) ∧
      vals.length = 9 ∧ vals.Sorted (fun a b => Val.le a b = true) ∧
      vals.Nodup ∧ (∀ v, v ∈ vals ↔ some v ∈ columnValues wTable 0)) ∧
    (columnReport wTable 1 ("id", "VARCHAR")).possibleValues = none :=
  ⟨by decide, by decide,
    (schema_enumeration_amended wTable 0 ("grade", "VARCHAR")).2.1 (by decide),
    (schema_enumeration_amended wTable 1 ("id", "VARCHAR")).2.2 (by decide)⟩

/-- C3 counterexample: two consecutive error-free `cleanup` calls starting
from an existing store file.  `duckdb.connect` at line 173 recreates the
store file the first call just deleted (the `data/` directory survives
`os.remove`), so the second call finds the file present, deletes it, and
reports deletion — it does NOT report that the store file does not exist.
This falsifies "the second call always reports that the store file does not
exist". -/
theorem cleanup_second_call_counterexample :
    (cleanup (cleanup wFS).2).1 =
      "Database file at " ++ DB_PATH ++ " has been completely removed." ∧
    (cleanup (cleanup wFS).2).1 ≠
      "Database file at " ++ DB_PATH ++ " does not exist." := by
  constructor
  · rfl
  · decide

/-- C3 amended: on a filesystem where connect and remove succeed, every
`cleanup` call — first or second, whatever the prior existence of the store
file — reports deletion, because the connect step recreates the file before
the existence test; each call still leaves the store file absent, and the
second consecutive call reports deletion again, never non-existence. -/
theorem cleanup_twice_reports (fs : FileSystem)
    (hc : fs.connectError = none) (hr : fs.removeError = none) :
    (cleanup fs).1 =
      "Database file at " ++ DB_PATH ++ " has been completely removed." ∧
    ((cleanup fs).2).dbExists = false ∧
    (cleanup (cleanup fs).2).1 =
      "Database file at " ++ DB_PATH ++ " has been completely removed." := by
  obtain ⟨ex, ce, re⟩ := fs
  dsimp only at hc hr
  subst hc hr
  exact ⟨rfl, rfl, rfl⟩

theorem cleanup_twice_reports_witness :
    (cleanup wFS).1 =
      "Database file at " ++ DB_PATH ++ " has been completely removed." ∧
    ((cleanup wFS).2).dbExists = false ∧
    (cleanup (cleanup wFS).2).1 =
      "Database file at " ++ DB_PATH ++ " has been completely removed." :=
  cleanup_twice_reports wFS rfl rfl

/-- C4: loading the same filename twice is idempotent.  If a `load_data`
call returned report `r` and left the `customers` table state `db'`, then an
immediately repeated load of the same filename returns the very same report
`r` (in particular the same row count) and leaves the state `db'` unchanged:
`CREATE TABLE IF NOT EXISTS` neither re-imports nor duplicates rows. -/
theorem load_data_idempotent (env : LoadEnv) (db : Option Table) (filename : String)
    (r : String) (db' : Option Table)
    (h : load_data env db filename = .ok (r, db')) :
    load_data env db' filename = .ok (r, db') := by
  simp only [load_data] at h ⊢
  cases hcsv : env.readCsv (accessFile env.chat filename).2 with
  | error e =>
    rw [hcsv] at h
    exact Except.noConfusion h
  | ok csv =>
    rw [hcsv] at h
    have h2 := Except.ok.inj h
    injection h2 with hr hdb
    subst hr
    subst hdb
    rfl

theorem load_data_idempotent_witness :
    load_data wEnvOk (some wTable) "report.csv" =
      .ok (render (loadReportLines "report.csv" wTable), some wTable) :=
  load_data_idempotent wEnvOk none "report.csv"
    (render (loadReportLines "report.csv" wTable)) (some wTable) rfl

/-- C5: when attachment retrieval raises, `_access_file` does not fail: it
returns the original basename for display and the original caller-supplied
string as the path to read; and if reading that fallback path also fails,
the failure propagates out of `load_data` (which has no exception handler)
as the read error itself. -/
theorem access_file_fallback (env : LoadEnv) (filename e : String)
    (hget : env.chat.getFile (pathName filename) = .error e) :
    accessFile env.chat filename = (pathName filename, filename) ∧
    ∀ (db : Option Table) (e2 : String), env.readCsv filename = .error e2 →
      load_data env db filename = .error e2 := by
  have hacc : accessFile env.chat filename = (pathName filename, filename) := by
    simp only [accessFile]
    rw [hget]
    rfl
  refine ⟨hacc, fun db e2 hread => ?_⟩
  simp only [load_data]
  rw [hacc]
  dsimp only
  rw [hread]

theorem access_file_fallback_witness :
    accessFile wEnvFail.chat "report.csv" = ("report.csv", "report.csv") ∧
    load_data wEnvFail none "report.csv" =
      .error "IO Error: No files found that match the pattern report.csv" := by
  have h := access_file_fallback wEnvFail "report.csv" "File not found" rfl
  exact ⟨h.1, h.2 none _ rfl⟩

/-- C6: `query` on the empty string renders exactly the table-listing
report; the listing's rows are the catalog entries of
`information_schema.tables` — a permutation of the store's tables, with the
names in ascending order — and (when the store is non-empty) the lines after
the listing preamble are precisely those catalog rows, pipe-formatted, in
catalog order. -/
theorem query_empty_lists_tables (db : DB) :
    query db "" = render (tableListingLines db) ∧
    List.Perm (information_schema_tables db) db.tables ∧
    ((information_schema_tables db).map Prod.fst).Sorted (· ≤ ·) ∧
    (db.tables ≠ [] →
      (tableListingLines db).drop 4 =
        (information_schema_tables db).map (fun r => r.1 ++ " | " ++ r.2)) := by
  refine ⟨rfl, List.perm_insertionSort _ _, ?_, ?_⟩
  · haveI : IsTotal (String × String) (fun a b => a.1 ≤ b.1) :=
      ⟨fun a b => le_total a.1 b.1⟩
    haveI : IsTrans (String × String) (fun a b => a.1 ≤ b.1) :=
      ⟨fun _ _ _ hab hbc => le_trans hab hbc⟩
    exact (List.sorted_insertionSort _ db.tables).map _ (fun _ _ h => h)
  · intro hne
    cases hcat : information_schema_tables db with
    | nil =>
      have P : List.Perm (information_schema_tables db) db.tables :=
        List.perm_insertionSort _ _
      rw [hcat] at P
      exact absurd P.symm.eq_nil hne
    | cons r rs => simp [tableListingLines, hcat]

theorem query_empty_lists_tables_witness :
    query wDB2 "" = render (tableListingLines wDB2) ∧
    List.Perm (information_schema_tables wDB2) wDB2.tables ∧
    ((information_schema_tables wDB2).map Prod.fst).Sorted (· ≤ ·) ∧
    (tableListingLines wDB2).drop 4 =
      (information_schema_tables wDB2).map (fun r => r.1 ++ " | " ++ r.2) := by
  have h := query_empty_lists_tables wDB2
  exact ⟨h.1, h.2.1, h.2.2.1, h.2.2.2 (by decide)⟩

end TempStorage
